import Mathlib

/-!
Verification of the OrchestML composition pipeline (orchestrator service).

The Python sources are shallowly embedded:
- `src/orchestrator/models.py` becomes the `Models` namespace;
- `src/orchestrator/composition.py` (the LangGraph pipeline) becomes the
  node functions `analyze_requirements`, `decompose_tasks`,
  `retrieve_task_services`, `build_composition`, the router
  `initiate_service_retrieval`, and the driver `graphAInvoke`
  (the compiled graph invocation from `compose_with_langgraph`);
- `src/orchestrator/main.py` recompose endpoint becomes
  `recompose_composition`.

External LLM calls and the repository discovery call are nondeterministic
I/O boundaries: they are modelled as oracle records (`LLMOracle`,
`TaskDescription → DiscoveryOutcome`) supplying the outcome of each call
a run can make. A Python exception raised by a call is an `Except.error`.

LangGraph channel semantics, as declared in `CompositionState`
(composition.py lines 80-99): the `retrieved_services` key is annotated
with `operator.add`, so node updates are appended to it; every other key
(including `reasoning_steps`, which has no reducer annotation) is a
last-value channel, overwritten by each node update that contains it.
`applyUpdate` embeds exactly this merge rule.
-/

namespace Orchest

/-- models.py TaskArgs: task execution parameters (all optional). -/
structure TaskArgs where
  image : Option String
  text : Option String
  document : Option String
deriving DecidableEq, Repr

namespace Models

/-- models.py Task: one step of a composition blueprint.
`dep` is a plain list of integers; the field description says
"[-1] for no dependencies" but the schema enforces nothing beyond
the type. -/
structure Task where
  task : String
  service_name : String
  id : Int
  dep : List Int
  args : TaskArgs
deriving DecidableEq, Repr

/-- models.py CompositionBlueprint: a list of Task steps plus an
optional summary. -/
structure CompositionBlueprint where
  tasks : List Task
  description : Option String
deriving DecidableEq, Repr

/-- models.py CompositionBlueprintAgentResponse: blueprint alternatives. -/
structure CompositionBlueprintAgentResponse where
  alternatives : List CompositionBlueprint
deriving DecidableEq, Repr

/-- models.py RecompositionTrigger (failure_evidence is an open map,
embedded as association pairs rendered to text only). -/
structure RecompositionTrigger where
  composition_id : String
  trigger_type : String
  failure_evidence : List (String × String)
  failure_analysis : String
  timestamp : String
deriving DecidableEq, Repr

end Models

/-- composition.py RequirementAnalysisResult: structured stage-1 output. -/
structure RequirementAnalysisResult where
  domain : String
  goals : List String
  input_types : List String
  success_criteria : List String
  constraints : List String
  confidence_score : Int
deriving DecidableEq, Repr

/-- composition.py TaskServiceCandidate (schema only; no stage populates it). -/
structure TaskServiceCandidate where
  task_id : Int
  task_description : String
  service_name : String
  relevance_score : Int
  confidence : Int
deriving DecidableEq, Repr

/-- composition.py TaskDescription: a decomposed task with its
pipeline-assigned identifier. -/
structure TaskDescription where
  task_id : Int
  name : String
  description : String
  ml_keywords : List String
deriving DecidableEq, Repr

/-- composition.py TaskDescriptionForLLM (local class in decompose_tasks):
the schema given to the LLM for extraction. It has no identifier field. -/
structure TaskDescriptionForLLM where
  name : String
  description : String
  ml_keywords : List String
deriving DecidableEq, Repr

/-- composition.py TaskExtractionResult (local class in decompose_tasks). -/
structure TaskExtractionResult where
  tasks : List TaskDescriptionForLLM
  reasoning_summary : String
deriving DecidableEq, Repr

/-- composition.py CompositionState: the LangGraph state record for one
run. Field order and optionality follow the TypedDict. -/
structure CompositionState where
  requirements : String
  constraints : List (String × String)
  analyzed_requirements : Option RequirementAnalysisResult
  requirement_cot : Option String
  structured_tasks : Option (List TaskDescription)
  task_breakdown : Option String
  retrieved_services : List String
  task_service_candidates : Option (List TaskServiceCandidate)
  final_composition : Option Models.CompositionBlueprintAgentResponse
  reasoning_steps : List String
deriving DecidableEq, Repr

/-- A partial state update as returned by a LangGraph node: `none` means
the node did not return that key. For an optional state field the update
carries the new `Option` value. -/
structure NodeUpdate where
  analyzed_requirements : Option (Option RequirementAnalysisResult) := none
  requirement_cot : Option (Option String) := none
  structured_tasks : Option (Option (List TaskDescription)) := none
  task_breakdown : Option (Option String) := none
  retrieved_services : Option (List String) := none
  task_service_candidates : Option (Option (List TaskServiceCandidate)) := none
  final_composition : Option (Option Models.CompositionBlueprintAgentResponse) := none
  reasoning_steps : Option (List String) := none
deriving DecidableEq, Repr

/-- LangGraph channel merge for CompositionState: `retrieved_services`
is an `operator.add` channel (updates append); every other key, including
`reasoning_steps`, is a last-value channel (updates overwrite). -/
def applyUpdate (s : CompositionState) (u : NodeUpdate) : CompositionState :=
  { requirements := s.requirements
    constraints := s.constraints
    analyzed_requirements := u.analyzed_requirements.getD s.analyzed_requirements
    requirement_cot := u.requirement_cot.getD s.requirement_cot
    structured_tasks := u.structured_tasks.getD s.structured_tasks
    task_breakdown := u.task_breakdown.getD s.task_breakdown
    retrieved_services := s.retrieved_services ++ u.retrieved_services.getD []
    task_service_candidates := u.task_service_candidates.getD s.task_service_candidates
    final_composition := u.final_composition.getD s.final_composition
    reasoning_steps := u.reasoning_steps.getD s.reasoning_steps }

/-- Outcomes of the LLM calls a single pipeline run can make, one oracle
field per call site in composition.py. `Except.error` is a raised Python
exception (or, for the structured calls, an unparsable result). -/
structure LLMOracle where
  requirementCot : Except String String
  requirementAnalysis : Except String RequirementAnalysisResult
  taskCot : Except String String
  taskExtraction : Except String TaskExtractionResult
  compositionCot : Except String String
  compositionStructured : Except String Models.CompositionBlueprintAgentResponse

/-- One search hit from the repository service response JSON:
`content` plus the optional `metadata.source` path
(`none` embeds a missing key, mirroring `metadata.get("source", "")`). -/
structure SearchResult where
  content : String
  metadata_source : Option String
deriving DecidableEq, Repr

/-- Outcome of one repository discovery POST in retrieve_task_services:
either an HTTP response (status code and parsed results) or a raised
exception (network failure etc.). -/
inductive DiscoveryOutcome where
  | response (status : Nat) (results : List SearchResult)
  | exception (msg : String)
deriving DecidableEq, Repr

/-- composition.py analyze_requirements. The stage-1 CoT call is outside
any try block, so its exception propagates; the structured call sits in
try/except and degrades to a null analysis. Returns the node update and
the number of LLM calls attempted. -/
def analyze_requirements (o : LLMOracle) (_s : CompositionState) :
    Except String NodeUpdate × Nat :=
  match o.requirementCot with
  | .error e => (.error e, 1)
  | .ok reasoning_text =>
    match o.requirementAnalysis with
    | .ok analysis =>
      (.ok { analyzed_requirements := some (some analysis)
             requirement_cot := some (some reasoning_text)
             reasoning_steps := some ["CoT Analysis - Domain: " ++ analysis.domain ++
               ", Goals: " ++ toString analysis.goals.length ++
               ", Confidence: " ++ toString analysis.confidence_score ++ "/10"] }, 2)
    | .error _ =>
      (.ok { analyzed_requirements := some none
             requirement_cot := some (some reasoning_text)
             reasoning_steps :=
               some ["CoT Analysis completed - structured parsing failed, using text reasoning"] }, 2)

/-- composition.py decompose_tasks lines 243-252: attach auto-generated
sequential identifiers (enumerate index + 1) to the extracted tasks,
in extraction order. -/
def structuredOf (tasks_list : List TaskDescriptionForLLM) : List TaskDescription :=
  tasks_list.enum.map (fun p =>
    { task_id := (p.1 : Int) + 1
      name := p.2.name
      description := p.2.description
      ml_keywords := p.2.ml_keywords })

/-- composition.py decompose_tasks. Fails fast (zero LLM calls) when the
structured analysis is null. The CoT call is outside any try block and
propagates; the extraction call degrades to null tasks. -/
def decompose_tasks (o : LLMOracle) (s : CompositionState) :
    Except String NodeUpdate × Nat :=
  match s.analyzed_requirements with
  | none =>
    (.ok { task_breakdown := some none
           structured_tasks := some none
           retrieved_services := some []
           task_service_candidates := some none
           reasoning_steps := some ["Task decomposition failed - no structured requirements"] }, 0)
  | some _ =>
    match o.taskCot with
    | .error e => (.error e, 1)
    | .ok task_breakdown_text =>
      match o.taskExtraction with
      | .ok extraction_result =>
        (.ok { task_breakdown := some (some task_breakdown_text)
               structured_tasks := some (some (structuredOf extraction_result.tasks))
               retrieved_services := some []
               task_service_candidates := some none
               reasoning_steps := some ["Task Decomposition - " ++
                 toString (structuredOf extraction_result.tasks).length ++
                 " structured tasks extracted"] }, 2)
      | .error _ =>
        (.ok { task_breakdown := some (some task_breakdown_text)
               structured_tasks := some none
               retrieved_services := some []
               task_service_candidates := some none
               reasoning_steps :=
                 some ["Task Decomposition completed - structured extraction failed, using text analysis only"] }, 2)

/-- composition.py retrieve_task_services lines 283-285: the search query
is the task description concatenated with the keywords. -/
def queryOf (task : TaskDescription) : String :=
  String.intercalate " " (task.description :: task.ml_keywords)

/-- composition.py retrieve_task_services line 301: derived short service
name; an empty source path is falsy so the index-based fallback is used. -/
def serviceNameOf (source_path : String) (i : Nat) : String :=
  if source_path = "" then "unknown-" ++ toString i
  else ((source_path.splitOn "/").getLastD "").replace ".md" ""

/-- composition.py retrieve_task_services lines 304-308: one formatted
self-contained service entry. -/
def serviceEntry (task : TaskDescription) (sname content : String) : String :=
  "TASK " ++ toString task.task_id ++ ": " ++ task.name ++
  "\nQUERY: " ++ queryOf task ++
  "\n\nSERVICE: " ++ sname ++ "\n" ++ content

/-- composition.py retrieve_task_services lines 297-310: format every
candidate of a successful response, with zero-based enumerate index. -/
def formatResults (task : TaskDescription) (results : List SearchResult) : List String :=
  results.enum.map (fun p =>
    serviceEntry task (serviceNameOf (p.2.metadata_source.getD "") p.1) p.2.content)

/-- composition.py retrieve_task_services: one fan-out branch. The whole
body is inside try/except Exception, and a non-200 status returns an
empty list, so a branch never raises and a failed branch contributes
zero entries. The node update touches only the retrieved_services key. -/
def retrieve_task_services (disc : TaskDescription → DiscoveryOutcome)
    (task : TaskDescription) : NodeUpdate :=
  match disc task with
  | .response status results =>
    if status = 200 then { retrieved_services := some (formatResults task results) }
    else { retrieved_services := some [] }
  | .exception _ => { retrieved_services := some [] }

/-- composition.py build_composition. Fails fast (zero LLM calls) if the
task list is null or empty or the merged retrieval list is empty. The
composition-analysis CoT call is outside any try block and propagates;
the structured call degrades to a null final composition. The analysis
text is used only to build the second prompt and is not stored in any
state field. -/
def build_composition (o : LLMOracle) (s : CompositionState) :
    Except String NodeUpdate × Nat :=
  match s.structured_tasks with
  | none =>
    (.ok { final_composition := some none
           reasoning_steps := some ["Composition building failed - missing tasks or services"] }, 0)
  | some structured_tasks =>
    if structured_tasks = [] ∨ s.retrieved_services = [] then
      (.ok { final_composition := some none
             reasoning_steps := some ["Composition building failed - missing tasks or services"] }, 0)
    else
      match o.compositionCot with
      | .error e => (.error e, 1)
      | .ok _composition_analysis =>
        match o.compositionStructured with
        | .ok final_composition =>
          (.ok { final_composition := some (some final_composition)
                 reasoning_steps :=
                   some ["Composition building completed - blueprint generated with full analysis"] }, 2)
        | .error _ =>
          (.ok { final_composition := some none
                 reasoning_steps :=
                   some ["Composition building completed - structured generation failed, using analysis only"] }, 2)

/-- Result of the conditional edge after decompose_tasks: either END or a
Send per structured task. -/
inductive RetrievalRoute where
  | toEnd
  | sends (tasks : List TaskDescription)
deriving DecidableEq, Repr

/-- composition.py initiate_service_retrieval: route to END when the
structured task list is null or empty, else one Send per task. -/
def initiate_service_retrieval (s : CompositionState) : RetrievalRoute :=
  match s.structured_tasks with
  | none => .toEnd
  | some structured_tasks =>
    if structured_tasks = [] then .toEnd else .sends structured_tasks

/-- Result of one graph invocation: the final state (or the propagated
exception) plus the number of LLM calls attempted by each reasoning
stage (stage 3 makes none). -/
structure RunResult where
  outcome : Except String CompositionState
  stage1Calls : Nat
  stage2Calls : Nat
  stage4Calls : Nat

/-- main.py compose_with_langgraph initial_state. -/
def initialState (requirements : String) (constraints : List (String × String)) :
    CompositionState :=
  { requirements := requirements
    constraints := constraints
    analyzed_requirements := none
    requirement_cot := none
    structured_tasks := none
    task_breakdown := none
    retrieved_services := []
    task_service_candidates := none
    final_composition := none
    reasoning_steps := [] }

/-- The compiled graph of create_composition_graph, invoked on an initial
state: START → analyze_requirements → decompose_tasks → conditional
fan-out (retrieve_task_services per task, merged through the
operator.add channel) → build_composition → END, with the END shortcut
when no tasks were extracted. A node that raises aborts the run with
that exception. -/
def graphAInvoke (o : LLMOracle) (disc : TaskDescription → DiscoveryOutcome)
    (init : CompositionState) : RunResult :=
  match analyze_requirements o init with
  | (.error e, n1) => ⟨.error e, n1, 0, 0⟩
  | (.ok u1, n1) =>
    let s1 := applyUpdate init u1
    match decompose_tasks o s1 with
    | (.error e, n2) => ⟨.error e, n1, n2, 0⟩
    | (.ok u2, n2) =>
      let s2 := applyUpdate s1 u2
      match initiate_service_retrieval s2 with
      | .toEnd => ⟨.ok s2, n1, n2, 0⟩
      | .sends ts =>
        let s3 := ts.foldl (fun s t => applyUpdate s (retrieve_task_services disc t)) s2
        match build_composition o s3 with
        | (.error e, n4) => ⟨.error e, n1, n2, n4⟩
        | (.ok u4, n4) => ⟨.ok (applyUpdate s3 u4), n1, n2, n4⟩

/-- The final state of a run, when it completed. -/
def outState (r : RunResult) : Option CompositionState :=
  match r.outcome with
  | .ok s => some s
  | .error _ => none

/-- The per-branch contribution of one fan-out task to the accumulating
retrieved_services channel. -/
def branchServices (disc : TaskDescription → DiscoveryOutcome)
    (t : TaskDescription) : List String :=
  (retrieve_task_services disc t).retrieved_services.getD []

/-- The content of the operator.add channel after merging the branch
outputs in the given completion order. -/
def mergeBranches (disc : TaskDescription → DiscoveryOutcome)
    (order : List TaskDescription) : List String :=
  order.foldl (fun acc t => acc ++ branchServices disc t) []

/-- Modelled from the spec (data-model clause for CompositionBlueprint):
recursively checks that every dependency list is the single sentinel
[-1] or references only ids of steps defined earlier in the list. -/
def specDepGo (seen : List Int) : List Models.Task → Bool
  | [] => true
  | t :: rest =>
    ((t.dep == [-1]) || t.dep.all (fun d => seen.contains d)) &&
      specDepGo (t.id :: seen) rest

/-- Modelled from the spec: the claimed invariant that each task step
either carries the no-dependency sentinel [-1] or depends only on ids
already defined earlier in the blueprint (which also rules out cycles).
This is a specification-side predicate to compare against the code; the
code itself performs no such validation. -/
def specDepInvariant (b : Models.CompositionBlueprint) : Bool :=
  specDepGo [] b.tasks

/-- main.py confirmed_compositions entry: the fields of the stored dict
that the recompose endpoint reads. -/
structure ConfirmedComposition where
  original_requirements : String
  deployment_context : List (String × String)
  status : String
deriving DecidableEq, Repr

/-- Text rendering of the open failure-evidence map when interpolated
into the enhanced-requirements f-string. -/
def renderEvidence (ev : List (String × String)) : String :=
  String.intercalate ", " (ev.map (fun p => p.1 ++ ": " ++ p.2))

/-- main.py recompose_composition lines 290-304: the synthesized
requirements string concatenating the original requirements, the
trigger evidence, and the improvement instructions. -/
def enhancedRequirements (orig : String) (trigger : Models.RecompositionTrigger) : String :=
  "\n    Original Requirements:\n    " ++ orig ++
  "\n    \n    Previous Implementation Issues:\n    - Trigger: " ++ trigger.trigger_type ++
  "\n    - Failure Analysis: " ++ trigger.failure_analysis ++
  "\n    - Performance Evidence: " ++ renderEvidence trigger.failure_evidence ++
  "\n    \n    Requirements for Improved Solution:" ++
  "\n    - Address the identified performance issues" ++
  "\n    - Maintain all original functional requirements" ++
  "\n    - Optimize for better execution characteristics" ++
  "\n    - Consider alternative service implementations\n    "

/-- A FastAPI HTTPException surfaced by an endpoint. -/
structure HTTPErrorResponse where
  status_code : Nat
  detail : String
deriving DecidableEq, Repr

/-- Result of one call to the recompose endpoint: the HTTP-level
outcome, how many times the composition pipeline was entered, and how
many reasoning-stage LLM calls those runs made. -/
structure RecomposeResult where
  response : Except HTTPErrorResponse Models.CompositionBlueprintAgentResponse
  pipelineRuns : Nat
  reasoningCalls : Nat

/-- main.py recompose_composition: returns 404 before any pipeline work
when the trigger references an id absent from confirmed_compositions;
otherwise enters compose_with_langgraph on the enhanced requirements
(a null final composition or a raised error surfaces as a 500). -/
def recompose_composition (o : LLMOracle) (disc : TaskDescription → DiscoveryOutcome)
    (confirmed : List (String × ConfirmedComposition))
    (trigger : Models.RecompositionTrigger) : RecomposeResult :=
  match confirmed.lookup trigger.composition_id with
  | none => ⟨.error ⟨404, "Original composition not found or was never confirmed"⟩, 0, 0⟩
  | some ctx =>
    let run := graphAInvoke o disc
      (initialState (enhancedRequirements ctx.original_requirements trigger)
        ctx.deployment_context)
    let calls := run.stage1Calls + run.stage2Calls + run.stage4Calls
    match run.outcome with
    | .error e => ⟨.error ⟨500, "Recomposition failed: " ++ e⟩, 1, calls⟩
    | .ok s =>
      match s.final_composition with
      | none =>
        ⟨.error ⟨500, "Recomposition failed: 500: LangGraph pipeline failed to generate composition"⟩, 1, calls⟩
      | some fc => ⟨.ok fc, 1, calls⟩

/-! Concrete inputs used by the closed counterexample and witness
theorems below. -/

/-- A discovery oracle for runs that never reach the fan-out. -/
def nullDisc : TaskDescription → DiscoveryOutcome := fun _ => .exception "unused"

/-- A structured requirement analysis used by concrete runs. -/
def anaOK : RequirementAnalysisResult :=
  ⟨"image-processing", ["g"], ["i"], ["s"], ["c"], 5⟩

/-- Oracle for a run whose stage-1 structured parsing fails: stage 2
then fail-fasts, so two stages are attempted. -/
def oC2 : LLMOracle :=
  { requirementCot := .ok "COT"
    requirementAnalysis := .error "parse"
    taskCot := .ok "TB"
    taskExtraction := .error "x"
    compositionCot := .ok "CA"
    compositionStructured := .error "x" }

/-- Oracle for a run whose stage-2 decomposition CoT call raises. -/
def oC1 : LLMOracle :=
  { requirementCot := .ok "R"
    requirementAnalysis := .ok anaOK
    taskCot := .error "boom"
    taskExtraction := .error "x"
    compositionCot := .ok "CA"
    compositionStructured := .error "x" }

/-- A blueprint with a dependency cycle (step 1 depends on 2 and step 2
on 1): well-typed against the models.py schema. -/
def cycBp : Models.CompositionBlueprint :=
  ⟨[⟨"taskA", "svc-a", 1, [2], ⟨none, none, none⟩⟩,
    ⟨"taskB", "svc-b", 2, [1], ⟨none, none, none⟩⟩], none⟩

/-- Oracle for a fully successful run whose blueprint extraction returns
the cyclic blueprint. -/
def oC8 : LLMOracle :=
  { requirementCot := .ok "c1"
    requirementAnalysis := .ok anaOK
    taskCot := .ok "c2"
    taskExtraction := .ok ⟨[⟨"T", "d", ["k"]⟩], "sum"⟩
    compositionCot := .ok "c3"
    compositionStructured := .ok ⟨[cycBp]⟩ }

/-- Discovery oracle returning one well-formed hit for every task. -/
def discC8 : TaskDescription → DiscoveryOutcome :=
  fun _ => .response 200 [⟨"content here", some "services/foo.md"⟩]

/-- The final state of the successful run driven by oC8 and discC8. -/
def sC8final : CompositionState :=
  (outState (graphAInvoke oC8 discC8 (initialState "r" []))).getD (initialState "r" [])

/-- A mid-run state with a non-empty task list and a non-empty merged
retrieval list, as seen by build_composition. -/
def sC6 : CompositionState :=
  { initialState "r" [] with
    structured_tasks := some [⟨1, "T", "d", ["k"]⟩]
    retrieved_services := ["entry"] }

/-- Oracle whose composition-analysis call yields a recognizable text
and whose blueprint extraction fails. -/
def oC6 : LLMOracle :=
  { requirementCot := .ok "x"
    requirementAnalysis := .error "x"
    taskCot := .ok "x"
    taskExtraction := .error "x"
    compositionCot := .ok "ANALYSIS-TEXT-12345"
    compositionStructured := .error "parse" }

/-- The builder fail-fast update (composition.py lines 343-348). -/
def builderFailFastUpdate : NodeUpdate :=
  { final_composition := some none
    reasoning_steps := some ["Composition building failed - missing tasks or services"] }

/-- Extraction result with three tasks, for the identifier witnesses. -/
def erW3 : TaskExtractionResult :=
  ⟨[⟨"A", "da", ["ka"]⟩, ⟨"B", "db", ["kb"]⟩, ⟨"C", "dc", ["kc"]⟩], "sum"⟩

/-- Oracle whose decomposition extraction succeeds with three tasks. -/
def oW3 : LLMOracle :=
  { requirementCot := .ok "R"
    requirementAnalysis := .ok anaOK
    taskCot := .ok "TB"
    taskExtraction := .ok erW3
    compositionCot := .ok "CA"
    compositionStructured := .error "x" }

/-- A state in which the structured analysis is present. -/
def sW3 : CompositionState :=
  { initialState "r" [] with analyzed_requirements := some anaOK }

/-- Two concrete tasks for the fan-out witnesses. -/
def taskW1 : TaskDescription := ⟨1, "T1", "d1", ["k1"]⟩

/-- Second concrete task for the fan-out witnesses. -/
def taskW2 : TaskDescription := ⟨2, "T2", "d2", ["k2"]⟩

/-- Discovery oracle where task 1 succeeds with two hits (the second hit
missing its metadata source) and every other task raises. -/
def discW : TaskDescription → DiscoveryOutcome := fun t =>
  if t.task_id = 1 then
    .response 200 [⟨"c0", some "services/alpha.md"⟩, ⟨"c1", none⟩]
  else .exception "connect timeout"

/-- A recomposition trigger referencing a composition id that was never
confirmed. -/
def trigW : Models.RecompositionTrigger :=
  ⟨"no-such-id", "performance_degradation", [("current_latency", "900")], "slow", "2026-01-01T00:00:00"⟩

/-! ### Shared lemmas -/

/-- A fan-out branch update only appends to the retrieved_services
channel and leaves every other state field unchanged. -/
theorem applyUpdate_retrieve (s : CompositionState)
    (disc : TaskDescription → DiscoveryOutcome) (t : TaskDescription) :
    applyUpdate s (retrieve_task_services disc t) =
      { s with retrieved_services := s.retrieved_services ++ branchServices disc t } := by
  rcases h : disc t with ⟨st, rs⟩ | m
  · by_cases h200 : st = 200 <;>
      simp [applyUpdate, retrieve_task_services, branchServices, h, h200]
  · simp [applyUpdate, retrieve_task_services, branchServices, h]

/-- Folding the fan-out branches over the state appends the flattened
branch outputs to the retrieved_services channel and changes nothing
else. -/
theorem foldl_retrieve (disc : TaskDescription → DiscoveryOutcome)
    (ts : List TaskDescription) :
    ∀ s : CompositionState,
      ts.foldl (fun s t => applyUpdate s (retrieve_task_services disc t)) s =
        { s with retrieved_services :=
            s.retrieved_services ++ (ts.map (branchServices disc)).flatten } := by
  induction ts with
  | nil => intro s; simp
  | cons t ts ih =>
    intro s
    rw [List.foldl_cons, applyUpdate_retrieve, ih]
    simp [List.append_assoc]

/-- Folding list-append over any list of branch outputs flattens them. -/
theorem foldl_append_eq {α β : Type} (f : α → List β) :
    ∀ (l : List α) (acc : List β),
      l.foldl (fun a t => a ++ f t) acc = acc ++ (l.map f).flatten := by
  intro l
  induction l with
  | nil => simp
  | cons x xs ih => intro acc; simp [ih, List.append_assoc]

/-- The merged channel content is the flattened per-branch outputs. -/
theorem mergeBranches_eq (disc : TaskDescription → DiscoveryOutcome)
    (order : List TaskDescription) :
    mergeBranches disc order = (order.map (branchServices disc)).flatten := by
  unfold mergeBranches
  rw [foldl_append_eq]
  rfl

/-- The auto-generated identifiers of the structured task list are the
enumerate indices shifted by one. -/
theorem structuredOf_map_task_id (l : List TaskDescriptionForLLM) :
    (structuredOf l).map (fun t => t.task_id) =
      (List.range l.length).map (fun i : Nat => (i : Int) + 1) := by
  unfold structuredOf
  rw [List.map_map,
    show ((fun t : TaskDescription => t.task_id) ∘
        (fun p : Nat × TaskDescriptionForLLM =>
          ({ task_id := (p.1 : Int) + 1, name := p.2.name,
             description := p.2.description,
             ml_keywords := p.2.ml_keywords } : TaskDescription))) =
      ((fun i : Nat => (i : Int) + 1) ∘ Prod.fst) from rfl,
    ← List.map_map, List.enum_map_fst]

/-- Identifier assignment preserves the extraction order of task names. -/
theorem structuredOf_map_name (l : List TaskDescriptionForLLM) :
    (structuredOf l).map (fun t => t.name) = l.map (fun t => t.name) := by
  unfold structuredOf
  rw [List.map_map,
    show ((fun t : TaskDescription => t.name) ∘
        (fun p : Nat × TaskDescriptionForLLM =>
          ({ task_id := (p.1 : Int) + 1, name := p.2.name,
             description := p.2.description,
             ml_keywords := p.2.ml_keywords } : TaskDescription))) =
      ((fun t : TaskDescriptionForLLM => t.name) ∘ Prod.snd) from rfl,
    ← List.map_map, List.enum_map_snd]

/-- Identifier assignment preserves the extraction order of
descriptions. -/
theorem structuredOf_map_description (l : List TaskDescriptionForLLM) :
    (structuredOf l).map (fun t => t.description) = l.map (fun t => t.description) := by
  unfold structuredOf
  rw [List.map_map,
    show ((fun t : TaskDescription => t.description) ∘
        (fun p : Nat × TaskDescriptionForLLM =>
          ({ task_id := (p.1 : Int) + 1, name := p.2.name,
             description := p.2.description,
             ml_keywords := p.2.ml_keywords } : TaskDescription))) =
      ((fun t : TaskDescriptionForLLM => t.description) ∘ Prod.snd) from rfl,
    ← List.map_map, List.enum_map_snd]

/-- One structured task per extracted task. -/
theorem structuredOf_length (l : List TaskDescriptionForLLM) :
    (structuredOf l).length = l.length := by
  simp [structuredOf]

/-! ### Claim theorems -/

/-- C1 counterexample: in the run driven by oC1, stage 1 succeeds and the
stage-2 task-decomposition CoT reasoning call raises; the raise
propagates out of the orchestrator as a hard failure instead of
degrading internally, so the run aborts — refuting the claim that only
the very first reasoning call can abort a run. -/
theorem stage2_cot_exception_aborts_run :
    (graphAInvoke oC1 nullDisc (initialState "r" [])).outcome = .error "boom" ∧
    oC1.requirementCot = .ok "R" := by
  exact ⟨rfl, rfl⟩

/-- C2 (code bug evaluated): in the run driven by oC2 both stage 1 and
stage 2 are attempted and each records its own audit entry, but the
final reasoning_steps holds only the stage-2 entry: the reasoning_steps
key has no operator.add reducer, so every stage overwrites it, losing
the earlier entries the spec requires. -/
theorem audit_log_overwritten_per_stage :
    (∃ u1, (analyze_requirements oC2 (initialState "req" [])).1 = .ok u1 ∧
      u1.reasoning_steps =
        some ["CoT Analysis completed - structured parsing failed, using text reasoning"]) ∧
    (outState (graphAInvoke oC2 nullDisc (initialState "req" []))).map
        (fun s => s.reasoning_steps) =
      some ["Task decomposition failed - no structured requirements"] ∧
    ¬ ("CoT Analysis completed - structured parsing failed, using text reasoning" ∈
        ["Task decomposition failed - no structured requirements"]) := by
  exact ⟨⟨_, rfl, rfl⟩, rfl, by decide⟩

/-- C3: whenever the stage-2 structured extraction succeeds with N
tasks, the decomposer returns the Task list whose identifiers are
exactly 1..N, dense and in extraction order, assigned by the pipeline
(the extraction schema TaskDescriptionForLLM has no identifier field,
so the capability cannot supply them). -/
theorem decomposed_task_ids_dense_1_to_N (o : LLMOracle) (s : CompositionState)
    (a : RequirementAnalysisResult) (txt : String) (er : TaskExtractionResult)
    (ha : s.analyzed_requirements = some a) (hc : o.taskCot = .ok txt)
    (he : o.taskExtraction = .ok er) :
    decompose_tasks o s =
      (.ok { task_breakdown := some (some txt)
             structured_tasks := some (some (structuredOf er.tasks))
             retrieved_services := some []
             task_service_candidates := some none
             reasoning_steps := some ["Task Decomposition - " ++
               toString (structuredOf er.tasks).length ++ " structured tasks extracted"] }, 2) ∧
    (structuredOf er.tasks).map (fun t => t.task_id) =
      (List.range er.tasks.length).map (fun i : Nat => (i : Int) + 1) ∧
    (structuredOf er.tasks).map (fun t => t.name) = er.tasks.map (fun t => t.name) ∧
    (structuredOf er.tasks).map (fun t => t.description) =
      er.tasks.map (fun t => t.description) ∧
    (structuredOf er.tasks).length = er.tasks.length := by
  refine ⟨?_, structuredOf_map_task_id er.tasks, structuredOf_map_name er.tasks,
    structuredOf_map_description er.tasks, structuredOf_length er.tasks⟩
  simp [decompose_tasks, ha, hc, he]

/-- C3 witness: the dense-identifier property at a concrete
three-task extraction. -/
theorem decomposed_task_ids_dense_1_to_N_witness :
    (structuredOf erW3.tasks).map (fun t => t.task_id) =
      (List.range erW3.tasks.length).map (fun i : Nat => (i : Int) + 1) :=
  (decomposed_task_ids_dense_1_to_N oW3 sW3 anaOK "TB" erW3 rfl rfl rfl).2.1

/-- C6 counterexample: the builder, given non-empty tasks and services,
with a successful analysis call producing ANALYSIS-TEXT-12345 and a
failed extraction call, returns exactly a null composition plus a fixed
audit note; the analysis text is not retained in the audit trail (nor
anywhere in the update), refuting the retention half of the claim. -/
theorem analysis_text_not_retained_counterexample :
    build_composition oC6 sC6 =
      (.ok { final_composition := some none
             reasoning_steps :=
               some ["Composition building completed - structured generation failed, using analysis only"] }, 2) ∧
    oC6.compositionCot = .ok "ANALYSIS-TEXT-12345" ∧
    ¬ ("ANALYSIS-TEXT-12345" ∈
        (applyUpdate sC6
          { final_composition := some none
            reasoning_steps :=
              some ["Composition building completed - structured generation failed, using analysis only"] }).reasoning_steps) := by
  exact ⟨rfl, rfl, by decide⟩

/-- C6 amended: with a non-empty task list and non-empty merged
retrieval list, when the analysis call succeeds the builder attempts
exactly two reasoning calls; if the extraction call fails, the run
keeps only a fixed audit note and a null blueprint set — the analysis
text itself is discarded, not stored in any state field. -/
theorem builder_two_calls_extraction_failure_note (o : LLMOracle)
    (s : CompositionState) (ts : List TaskDescription) (txt : String)
    (h1 : s.structured_tasks = some ts) (h2 : ts ≠ [])
    (h3 : s.retrieved_services ≠ []) (h4 : o.compositionCot = .ok txt) :
    (build_composition o s).2 = 2 ∧
    (∀ e, o.compositionStructured = .error e →
      (build_composition o s).1 =
        .ok { final_composition := some none
              reasoning_steps :=
                some ["Composition building completed - structured generation failed, using analysis only"] }) := by
  constructor
  · rcases h5 : o.compositionStructured with e | fc <;>
      simp [build_composition, h1, h2, h3, h4, h5]
  · intro e h5
    simp [build_composition, h1, h2, h3, h4, h5]

/-- C6 amended witness: the two-call count at the concrete
builder input oC6 and sC6. -/
theorem builder_two_calls_extraction_failure_note_witness :
    (build_composition oC6 sC6).2 = 2 :=
  (builder_two_calls_extraction_failure_note oC6 sC6 [⟨1, "T", "d", ["k"]⟩]
    "ANALYSIS-TEXT-12345" rfl (by decide) (by decide) rfl).1

/-- C7: when the structured analysis is null the decomposer fails fast
with zero reasoning calls, null tasks, null breakdown text, an empty
merge-ready retrieval list and an audit note; and a run whose stage-1
structured parsing failed still completes without raising. -/
theorem decomposer_fail_fast_null_analysis :
    (∀ (o : LLMOracle) (s : CompositionState), s.analyzed_requirements = none →
      decompose_tasks o s =
        (.ok { task_breakdown := some none
               structured_tasks := some none
               retrieved_services := some []
               task_service_candidates := some none
               reasoning_steps :=
                 some ["Task decomposition failed - no structured requirements"] }, 0)) ∧
    (∀ (o : LLMOracle) (disc : TaskDescription → DiscoveryOutcome)
      (r : String) (c : List (String × String)) (t e : String),
      o.requirementCot = .ok t → o.requirementAnalysis = .error e →
      ∃ s, (graphAInvoke o disc (initialState r c)).outcome = .ok s) := by
  constructor
  · intro o s h
    simp [decompose_tasks, h]
  · intro o disc r c t e h1 h2
    rcases hout : (graphAInvoke o disc (initialState r c)).outcome with e2 | s
    · exfalso
      simp [graphAInvoke, analyze_requirements, h1, h2, decompose_tasks, applyUpdate,
        initialState, initiate_service_retrieval] at hout
    · exact ⟨s, rfl⟩

/-- C7 witness: the fail-fast output at the oC2-driven state with a
null analysis. -/
theorem decomposer_fail_fast_null_analysis_witness :
    decompose_tasks oC2 (initialState "req" []) =
      (.ok { task_breakdown := some none
             structured_tasks := some none
             retrieved_services := some []
             task_service_candidates := some none
             reasoning_steps :=
               some ["Task decomposition failed - no structured requirements"] }, 0) :=
  decomposer_fail_fast_null_analysis.1 oC2 (initialState "req" []) rfl

/-- C8 counterexample: a fully successful run whose blueprint extraction
returns a cyclic blueprint (step 1 depends on 2 and step 2 on 1)
completes and stores that blueprint as the final composition; the
spec-modelled dependency invariant rejects it, so blueprints accepted
by the system need not satisfy the claimed invariant. -/
theorem cyclic_blueprint_accepted :
    (outState (graphAInvoke oC8 discC8 (initialState "r" []))).map
        (fun s => s.final_composition) = some (some ⟨[cycBp]⟩) ∧
    specDepInvariant cycBp = false := by
  exact ⟨rfl, rfl⟩

/-- C9: a recompose call whose trigger references a composition id that
was never confirmed returns the 404 not-found outcome, enters the
composition pipeline zero times and makes zero reasoning calls. -/
theorem recompose_unknown_id_not_found (o : LLMOracle)
    (disc : TaskDescription → DiscoveryOutcome)
    (confirmed : List (String × ConfirmedComposition))
    (trigger : Models.RecompositionTrigger)
    (h : confirmed.lookup trigger.composition_id = none) :
    recompose_composition o disc confirmed trigger =
      ⟨.error ⟨404, "Original composition not found or was never confirmed"⟩, 0, 0⟩ := by
  simp [recompose_composition, h]

/-- C9 witness: the not-found outcome with an empty confirmed store. -/
theorem recompose_unknown_id_not_found_witness :
    recompose_composition oC2 nullDisc [] trigW =
      ⟨.error ⟨404, "Original composition not found or was never confirmed"⟩, 0, 0⟩ :=
  recompose_unknown_id_not_found oC2 nullDisc [] trigW rfl

/-- C10: in a successful discovery response, a candidate whose metadata
source is missing or empty still yields a formatted entry whose derived
service name is unknown-i with i the zero-based index of the candidate,
and the branch output has one entry per candidate. -/
theorem missing_source_unknown_name (disc : TaskDescription → DiscoveryOutcome)
    (task : TaskDescription) (results : List SearchResult) (i : Nat) (r : SearchResult)
    (hd : disc task = .response 200 results) (hi : results.get? i = some r)
    (hs : r.metadata_source.getD "" = "") :
    (branchServices disc task).length = results.length ∧
    (branchServices disc task).get? i =
      some (serviceEntry task ("unknown-" ++ toString i) r.content) := by
  have hb : branchServices disc task = formatResults task results := by
    simp [branchServices, retrieve_task_services, hd]
  constructor
  · simp [hb, formatResults]
  · rw [hb]
    unfold formatResults
    rw [List.get?_map, List.get?_enum, hi]
    simp [serviceNameOf, hs]

/-- C10 witness: the second hit of the concrete discovery response for
taskW1 has no metadata source and is formatted as unknown-1. -/
theorem missing_source_unknown_name_witness :
    (branchServices discW taskW1).get? 1 =
      some (serviceEntry taskW1 ("unknown-" ++ toString 1) "c1") :=
  (missing_source_unknown_name discW taskW1
    [⟨"c0", some "services/alpha.md"⟩, ⟨"c1", none⟩] 1 ⟨"c1", none⟩
    (by decide) rfl rfl).2

/-! ### Whole-run case analysis -/

/-- Channel read of the requirements field after a node update. -/
theorem applyUpdate_requirements (s : CompositionState) (u : NodeUpdate) :
    (applyUpdate s u).requirements = s.requirements := rfl

/-- Channel read of the constraints field after a node update. -/
theorem applyUpdate_constraints (s : CompositionState) (u : NodeUpdate) :
    (applyUpdate s u).constraints = s.constraints := rfl

/-- Channel read of the analyzed_requirements field after a node update. -/
theorem applyUpdate_analyzed (s : CompositionState) (u : NodeUpdate) :
    (applyUpdate s u).analyzed_requirements =
      u.analyzed_requirements.getD s.analyzed_requirements := rfl

/-- Channel read of the requirement_cot field after a node update. -/
theorem applyUpdate_cot (s : CompositionState) (u : NodeUpdate) :
    (applyUpdate s u).requirement_cot = u.requirement_cot.getD s.requirement_cot := rfl

/-- Channel read of the structured_tasks field after a node update. -/
theorem applyUpdate_structured (s : CompositionState) (u : NodeUpdate) :
    (applyUpdate s u).structured_tasks = u.structured_tasks.getD s.structured_tasks := rfl

/-- Channel read of the task_breakdown field after a node update. -/
theorem applyUpdate_breakdown (s : CompositionState) (u : NodeUpdate) :
    (applyUpdate s u).task_breakdown = u.task_breakdown.getD s.task_breakdown := rfl

/-- Channel read of the accumulating retrieved_services field after a
node update. -/
theorem applyUpdate_retrieved (s : CompositionState) (u : NodeUpdate) :
    (applyUpdate s u).retrieved_services =
      s.retrieved_services ++ u.retrieved_services.getD [] := rfl

/-- Channel read of the task_service_candidates field after a node
update. -/
theorem applyUpdate_candidates (s : CompositionState) (u : NodeUpdate) :
    (applyUpdate s u).task_service_candidates =
      u.task_service_candidates.getD s.task_service_candidates := rfl

/-- Channel read of the final_composition field after a node update. -/
theorem applyUpdate_final (s : CompositionState) (u : NodeUpdate) :
    (applyUpdate s u).final_composition =
      u.final_composition.getD s.final_composition := rfl

/-- Channel read of the reasoning_steps field after a node update. -/
theorem applyUpdate_steps (s : CompositionState) (u : NodeUpdate) :
    (applyUpdate s u).reasoning_steps = u.reasoning_steps.getD s.reasoning_steps := rfl

/-- Every run of the pipeline falls into one of five shapes: it aborts
with the error of one of the three free-text CoT calls, or it completes
without invoking the builder (null final composition), or it completes
through the builder with a non-empty task list, the final composition
being null or exactly the structured-extraction output. In every
completed shape whose structured task list is present, the
retrieved_services channel holds exactly the flattened per-branch
outputs of the fan-out over that task list. -/
theorem run_shape (o : LLMOracle) (disc : TaskDescription → DiscoveryOutcome)
    (r : String) (c : List (String × String)) :
    (∃ e, o.requirementCot = .error e ∧
      (graphAInvoke o disc (initialState r c)).outcome = .error e) ∨
    (∃ e, o.taskCot = .error e ∧
      (graphAInvoke o disc (initialState r c)).outcome = .error e) ∨
    (∃ e, o.compositionCot = .error e ∧
      (graphAInvoke o disc (initialState r c)).outcome = .error e) ∨
    (∃ s, (graphAInvoke o disc (initialState r c)).outcome = .ok s ∧
      (graphAInvoke o disc (initialState r c)).stage4Calls = 0 ∧
      s.final_composition = none ∧
      (s.structured_tasks = none ∨
        ∃ ts, s.structured_tasks = some ts ∧
          s.retrieved_services = (ts.map (branchServices disc)).flatten)) ∨
    (∃ s ts, (graphAInvoke o disc (initialState r c)).outcome = .ok s ∧
      s.structured_tasks = some ts ∧ ts ≠ [] ∧
      s.retrieved_services = (ts.map (branchServices disc)).flatten ∧
      (s.final_composition = none ∨
        ∃ fc, o.compositionStructured = .ok fc ∧ s.final_composition = some fc)) := by
  rcases h1 : o.requirementCot with e1 | t1
  · exact Or.inl ⟨e1, rfl, by simp [graphAInvoke, analyze_requirements, h1]⟩
  · rcases h2 : o.requirementAnalysis with e2 | a2
    · right; right; right; left
      rcases hout : (graphAInvoke o disc (initialState r c)).outcome with e | s
      · exfalso
        simp [graphAInvoke, analyze_requirements, h1, h2, decompose_tasks,
          initialState, initiate_service_retrieval, applyUpdate_analyzed,
          applyUpdate_structured] at hout
      · simp [graphAInvoke, analyze_requirements, h1, h2, decompose_tasks,
          initialState, initiate_service_retrieval, applyUpdate_analyzed,
          applyUpdate_structured] at hout
        subst hout
        refine ⟨_, rfl, ?_, ?_, Or.inl ?_⟩
        · simp [graphAInvoke, analyze_requirements, h1, h2, decompose_tasks,
            initialState, initiate_service_retrieval, applyUpdate_analyzed,
            applyUpdate_structured]
        · simp [applyUpdate_final, initialState]
        · simp [applyUpdate_structured, initialState]
    · rcases h3 : o.taskCot with e3 | t3
      · refine Or.inr (Or.inl ⟨e3, rfl, ?_⟩)
        simp [graphAInvoke, analyze_requirements, h1, h2, decompose_tasks, h3,
          initialState, applyUpdate_analyzed]
      · rcases h4 : o.taskExtraction with e4 | er4
        · right; right; right; left
          rcases hout : (graphAInvoke o disc (initialState r c)).outcome with e | s
          · exfalso
            simp [graphAInvoke, analyze_requirements, h1, h2, decompose_tasks, h3, h4,
              initialState, initiate_service_retrieval, applyUpdate_analyzed,
              applyUpdate_structured] at hout
          · simp [graphAInvoke, analyze_requirements, h1, h2, decompose_tasks, h3, h4,
              initialState, initiate_service_retrieval, applyUpdate_analyzed,
              applyUpdate_structured] at hout
            subst hout
            refine ⟨_, rfl, ?_, ?_, Or.inl ?_⟩
            · simp [graphAInvoke, analyze_requirements, h1, h2, decompose_tasks, h3, h4,
                initialState, initiate_service_retrieval, applyUpdate_analyzed,
                applyUpdate_structured]
            · simp [applyUpdate_final, initialState]
            · simp [applyUpdate_structured, initialState]
        · by_cases hts : structuredOf er4.tasks = []
          · right; right; right; left
            rcases hout : (graphAInvoke o disc (initialState r c)).outcome with e | s
            · exfalso
              simp [graphAInvoke, analyze_requirements, h1, h2, decompose_tasks, h3, h4,
                initialState, initiate_service_retrieval, applyUpdate_analyzed,
                applyUpdate_structured, hts] at hout
            · simp [graphAInvoke, analyze_requirements, h1, h2, decompose_tasks, h3, h4,
                initialState, initiate_service_retrieval, applyUpdate_analyzed,
                applyUpdate_structured, hts] at hout
              subst hout
              refine ⟨_, rfl, ?_, ?_, Or.inr ⟨structuredOf er4.tasks, ?_, ?_⟩⟩
              · simp [graphAInvoke, analyze_requirements, h1, h2, decompose_tasks, h3, h4,
                  initialState, initiate_service_retrieval, applyUpdate_analyzed,
                  applyUpdate_structured, hts]
              · simp [applyUpdate_final, initialState]
              · simp [applyUpdate_structured, initialState, hts]
              · simp [applyUpdate_retrieved, initialState, hts]
          · by_cases hm : (List.map (branchServices disc) (structuredOf er4.tasks)).flatten = []
            · right; right; right; left
              rcases hout : (graphAInvoke o disc (initialState r c)).outcome with e | s
              · exfalso
                simp [graphAInvoke, analyze_requirements, h1, h2, decompose_tasks, h3, h4,
                  initialState, initiate_service_retrieval, hts, foldl_retrieve,
                  build_composition, hm, applyUpdate_analyzed, applyUpdate_structured,
                  applyUpdate_retrieved] at hout
              · simp [graphAInvoke, analyze_requirements, h1, h2, decompose_tasks, h3, h4,
                  initialState, initiate_service_retrieval, hts, foldl_retrieve,
                  build_composition, hm, applyUpdate_analyzed, applyUpdate_structured,
                  applyUpdate_retrieved] at hout
                subst hout
                refine ⟨_, rfl, ?_, ?_, Or.inr ⟨structuredOf er4.tasks, ?_, ?_⟩⟩
                · simp [graphAInvoke, analyze_requirements, h1, h2, decompose_tasks, h3, h4,
                    initialState, initiate_service_retrieval, hts, foldl_retrieve,
                    build_composition, hm, applyUpdate_analyzed, applyUpdate_structured,
                    applyUpdate_retrieved]
                · simp [applyUpdate_final, initialState]
                · simp [applyUpdate_structured, initialState]
                · simp [applyUpdate_retrieved, initialState, hm]
            · rcases h5 : o.compositionCot with e5 | t5
              · refine Or.inr (Or.inr (Or.inl ⟨e5, rfl, ?_⟩))
                simp [graphAInvoke, analyze_requirements, h1, h2, decompose_tasks, h3, h4,
                  initialState, initiate_service_retrieval, hts, foldl_retrieve,
                  build_composition, hm, h5, applyUpdate_analyzed, applyUpdate_structured,
                  applyUpdate_retrieved]
              · right; right; right; right
                rcases hout : (graphAInvoke o disc (initialState r c)).outcome with e | s
                · exfalso
                  rcases h6 : o.compositionStructured with e6 | fc6 <;>
                    simp [graphAInvoke, analyze_requirements, h1, h2, decompose_tasks, h3, h4,
                      initialState, initiate_service_retrieval, hts, foldl_retrieve,
                      build_composition, hm, h5, h6, applyUpdate_analyzed,
                      applyUpdate_structured, applyUpdate_retrieved] at hout
                · rcases h6 : o.compositionStructured with e6 | fc6
                  · simp [graphAInvoke, analyze_requirements, h1, h2, decompose_tasks, h3, h4,
                      initialState, initiate_service_retrieval, hts, foldl_retrieve,
                      build_composition, hm, h5, h6, applyUpdate_analyzed,
                      applyUpdate_structured, applyUpdate_retrieved] at hout
                    subst hout
                    refine ⟨_, structuredOf er4.tasks, rfl, ?_, hts, ?_, Or.inl ?_⟩
                    · simp [applyUpdate_structured, initialState]
                    · simp [applyUpdate_retrieved, initialState]
                    · simp [applyUpdate_final, initialState]
                  · simp [graphAInvoke, analyze_requirements, h1, h2, decompose_tasks, h3, h4,
                      initialState, initiate_service_retrieval, hts, foldl_retrieve,
                      build_composition, hm, h5, h6, applyUpdate_analyzed,
                      applyUpdate_structured, applyUpdate_retrieved] at hout
                    subst hout
                    refine ⟨_, structuredOf er4.tasks, rfl, ?_, hts, ?_, Or.inr ⟨fc6, rfl, ?_⟩⟩
                    · simp [applyUpdate_structured, initialState]
                    · simp [applyUpdate_retrieved, initialState]
                    · simp [applyUpdate_final, initialState]

/-- C5: in every completed run, the merged retrieved-services channel
holds exactly the flattened branch outputs of the fan-out over the
structured task list, so its size is the sum of the per-branch counts;
the merge is order-irrelevant (any completion order yields the same
size); and a branch whose discovery call raises or returns a
non-success status contributes the empty list and never raises out of
the join. -/
theorem fanout_merge_additive :
    (∀ (o : LLMOracle) (disc : TaskDescription → DiscoveryOutcome)
      (r : String) (c : List (String × String)) (s : CompositionState)
      (ts : List TaskDescription),
      (graphAInvoke o disc (initialState r c)).outcome = .ok s →
      s.structured_tasks = some ts →
      s.retrieved_services.length =
        (ts.map (fun t => (branchServices disc t).length)).sum) ∧
    (∀ (disc : TaskDescription → DiscoveryOutcome) (tasks order : List TaskDescription),
      order.Perm tasks →
      (mergeBranches disc order).length =
        (tasks.map (fun t => (branchServices disc t).length)).sum) ∧
    (∀ (disc : TaskDescription → DiscoveryOutcome) (t : TaskDescription) (m : String),
      disc t = .exception m → branchServices disc t = []) ∧
    (∀ (disc : TaskDescription → DiscoveryOutcome) (t : TaskDescription)
      (st : Nat) (rs : List SearchResult),
      disc t = .response st rs → st ≠ 200 → branchServices disc t = []) := by
  refine ⟨?_, ?_, ?_, ?_⟩
  · intro o disc r c s ts hok hst
    rcases run_shape o disc r c with ⟨e1, ha, hb⟩ | ⟨e1, ha, hb⟩ | ⟨e1, ha, hb⟩ |
      ⟨s', hb, _, _, hstr⟩ | ⟨s', ts2, hb, hst2, _, hret, _⟩
    · rw [hok] at hb; cases hb
    · rw [hok] at hb; cases hb
    · rw [hok] at hb; cases hb
    · rw [hok] at hb; injection hb with h; subst h
      rcases hstr with h | ⟨ts2, hst2, hret⟩
      · rw [hst] at h; cases h
      · rw [hst] at hst2; injection hst2 with h2; subst h2
        rw [hret, List.length_flatten, List.map_map]
        exact rfl
    · rw [hok] at hb; injection hb with h; subst h
      rw [hst] at hst2; injection hst2 with h2; subst h2
      rw [hret, List.length_flatten, List.map_map]
      exact rfl
  · intro disc tasks order hperm
    rw [mergeBranches_eq, List.length_flatten, List.map_map]
    exact (hperm.map (fun t => (branchServices disc t).length)).sum_eq
  · intro disc t m h
    simp [branchServices, retrieve_task_services, h]
  · intro disc t st rs h hne
    simp [branchServices, retrieve_task_services, h, hne]

/-- C5 witness: the merged channel of the completed oC8 run has the
summed per-branch size; a reversed completion order merges to the same
size; and a raising branch contributes nothing. -/
theorem fanout_merge_additive_witness :
    sC8final.retrieved_services.length =
      ((structuredOf (TaskExtractionResult.tasks ⟨[⟨"T", "d", ["k"]⟩], "sum"⟩)).map
        (fun t => (branchServices discC8 t).length)).sum ∧
    (mergeBranches discW [taskW2, taskW1]).length =
      ([taskW1, taskW2].map (fun t => (branchServices discW t).length)).sum ∧
    branchServices discW taskW2 = [] := by
  refine ⟨?_, ?_, ?_⟩
  · exact fanout_merge_additive.1 oC8 discC8 "r" [] sC8final
      (structuredOf (TaskExtractionResult.tasks ⟨[⟨"T", "d", ["k"]⟩], "sum"⟩)) rfl rfl
  · exact fanout_merge_additive.2.1 discW [taskW1, taskW2] [taskW2, taskW1] (by decide)
  · exact fanout_merge_additive.2.2.1 discW taskW2 "connect timeout" (by decide)

/-- C1 amended: a run aborts only when one of the three free-text CoT
reasoning calls (stage 1 rationale, stage 2 decomposition CoT, stage 4
composition-analysis CoT) raises — not just the very first call; and
whenever all three CoT calls succeed, every run completes regardless of
extraction or discovery failures. -/
theorem cot_calls_are_the_only_hard_failures :
    (∀ (o : LLMOracle) (disc : TaskDescription → DiscoveryOutcome)
      (r : String) (c : List (String × String)) (e : String),
      (graphAInvoke o disc (initialState r c)).outcome = .error e →
      o.requirementCot = .error e ∨ o.taskCot = .error e ∨ o.compositionCot = .error e) ∧
    (∀ (o : LLMOracle) (disc : TaskDescription → DiscoveryOutcome)
      (r : String) (c : List (String × String)) (t1 t2 t3 : String),
      o.requirementCot = .ok t1 → o.taskCot = .ok t2 → o.compositionCot = .ok t3 →
      ∃ s, (graphAInvoke o disc (initialState r c)).outcome = .ok s) := by
  constructor
  · intro o disc r c e he
    rcases run_shape o disc r c with ⟨e1, ha, hb⟩ | ⟨e1, ha, hb⟩ | ⟨e1, ha, hb⟩ |
      ⟨s, hb, _, _, _⟩ | ⟨s, ts, hb, _, _, _, _⟩
    · rw [he] at hb; injection hb with h; exact Or.inl (h ▸ ha)
    · rw [he] at hb; injection hb with h; exact Or.inr (Or.inl (h ▸ ha))
    · rw [he] at hb; injection hb with h; exact Or.inr (Or.inr (h ▸ ha))
    · rw [he] at hb; cases hb
    · rw [he] at hb; cases hb
  · intro o disc r c t1 t2 t3 h1 h2 h3
    rcases run_shape o disc r c with ⟨e1, ha, hb⟩ | ⟨e1, ha, hb⟩ | ⟨e1, ha, hb⟩ |
      ⟨s, hb, _, _, _⟩ | ⟨s, ts, hb, _, _, _, _⟩
    · rw [h1] at ha; cases ha
    · rw [h2] at ha; cases ha
    · rw [h3] at ha; cases ha
    · exact ⟨s, hb⟩
    · exact ⟨s, hb⟩

/-- C1 amended witness: the abort of the oC1 run is traced to one of
the three CoT calls. -/
theorem cot_calls_are_the_only_hard_failures_witness :
    oC1.requirementCot = .error "boom" ∨ oC1.taskCot = .error "boom" ∨
      oC1.compositionCot = .error "boom" :=
  cot_calls_are_the_only_hard_failures.1 oC1 nullDisc "r" [] "boom" rfl

/-- C4: a completed run whose structured task list is null or empty has
a null final composition and made zero stage-4 reasoning calls; and the
builder itself, given a null or empty task list or an empty merged
retrieval list, makes zero reasoning calls and returns the null
blueprint set plus the audit note. -/
theorem builder_skipped_without_tasks :
    (∀ (o : LLMOracle) (disc : TaskDescription → DiscoveryOutcome)
      (r : String) (c : List (String × String)) (s : CompositionState),
      (graphAInvoke o disc (initialState r c)).outcome = .ok s →
      (s.structured_tasks = none ∨ s.structured_tasks = some []) →
      s.final_composition = none ∧
        (graphAInvoke o disc (initialState r c)).stage4Calls = 0) ∧
    (∀ (o : LLMOracle) (s : CompositionState),
      (s.structured_tasks = none ∨ s.structured_tasks = some [] ∨
        s.retrieved_services = []) →
      build_composition o s = (.ok builderFailFastUpdate, 0)) := by
  constructor
  · intro o disc r c s hok hempty
    rcases run_shape o disc r c with ⟨e1, ha, hb⟩ | ⟨e1, ha, hb⟩ | ⟨e1, ha, hb⟩ |
      ⟨s', hb, h40, hfin, _⟩ | ⟨s', ts, hb, hst, hts, _, _⟩
    · rw [hok] at hb; cases hb
    · rw [hok] at hb; cases hb
    · rw [hok] at hb; cases hb
    · rw [hok] at hb; injection hb with h; exact ⟨h ▸ hfin, h40⟩
    · rw [hok] at hb; injection hb with h; subst h
      rcases hempty with h | h
      · rw [h] at hst; cases hst
      · rw [h] at hst; injection hst with h2; exact absurd h2.symm hts
  · intro o s hempty
    rcases hempty with h | h | h
    · simp [build_composition, builderFailFastUpdate, h]
    · simp [build_composition, builderFailFastUpdate, h]
    · cases hst : s.structured_tasks with
      | none => simp [build_composition, builderFailFastUpdate, hst]
      | some ts => simp [build_composition, builderFailFastUpdate, hst, h]

/-- C4 witness: the builder fail-fast at the fresh initial state. -/
theorem builder_skipped_without_tasks_witness :
    build_composition oC2 (initialState "req" []) = (.ok builderFailFastUpdate, 0) :=
  builder_skipped_without_tasks.2 oC2 (initialState "req" []) (Or.inl rfl)

/-- C8 amended: the pipeline performs no dependency validation on
blueprints: whenever the structured extraction succeeds, a completed
run carries either a null final composition or exactly the extracted
blueprint set, whatever its dependency lists contain. -/
theorem blueprint_passed_through_unvalidated (o : LLMOracle)
    (disc : TaskDescription → DiscoveryOutcome) (r : String)
    (c : List (String × String)) (fc : Models.CompositionBlueprintAgentResponse)
    (s : CompositionState) (hfc : o.compositionStructured = .ok fc)
    (hok : (graphAInvoke o disc (initialState r c)).outcome = .ok s) :
    s.final_composition = none ∨ s.final_composition = some fc := by
  rcases run_shape o disc r c with ⟨e1, ha, hb⟩ | ⟨e1, ha, hb⟩ | ⟨e1, ha, hb⟩ |
    ⟨s', hb, h40, hfin, _⟩ | ⟨s', ts, hb, hst, hts, _, hfin⟩
  · rw [hok] at hb; cases hb
  · rw [hok] at hb; cases hb
  · rw [hok] at hb; cases hb
  · rw [hok] at hb; injection hb with h; exact Or.inl (h ▸ hfin)
  · rw [hok] at hb; injection hb with h; subst h
    rcases hfin with h | ⟨fc2, hfc2, hfin⟩
    · exact Or.inl h
    · rw [hfc] at hfc2; injection hfc2 with h2
      exact Or.inr (h2 ▸ hfin)

/-- C8 amended witness: the cyclic-blueprint run satisfies the
pass-through property. -/
theorem blueprint_passed_through_unvalidated_witness :
    sC8final.final_composition = none ∨
      sC8final.final_composition = some ⟨[cycBp]⟩ :=
  blueprint_passed_through_unvalidated oC8 discC8 "r" [] ⟨[cycBp]⟩ sC8final rfl rfl

end Orchest
